import Mathlib

/-!
Verification of the games/reviews one-to-many data model
(`src/one_to_many/app/db.py` and its test fixtures).

The repository declares two mapped record types, `Game` and `Review`,
linked by `Review.game_id → games.game_id` with a `relationship` and
`backref` (db.py line 24), and test fixtures that insert rows through a
session and read them back.  The persistence/session boundary itself is an
external collaborator (an ORM over a relational store); its behaviour is
embedded here following the contract stated in the specification §4.3:
commit assigns auto-increment primary keys, single-row add and batch add
append rows, the foreign key is checked on insert, and relationship
collections read back in insertion order.
-/

/-- A mapped `Game` row/object, from `src/one_to_many/app/db.py` lines
15-28: columns `game_id` (integer primary key), `game_title`,
`game_genre`, `game_platform` (strings), `game_price` (integer).
The primary key is `none` until the row is durably stored. -/
structure Game where
  game_id : Option Nat
  game_title : String
  game_genre : String
  game_platform : String
  game_price : Int
deriving DecidableEq, Repr

/-- A mapped `Review` row/object, from `src/one_to_many/app/db.py` lines
31-42: columns `review_id` (integer primary key), `review_score`
(integer), `review_comment` (string), `game_id` (integer foreign key
referencing `games.game_id`, nullable as all plain columns are). -/
structure Review where
  review_id : Option Nat
  review_score : Int
  review_comment : String
  game_id : Option Nat
deriving DecidableEq, Repr

/-- Construction of a `Game` as in the test fixtures
(`Game(game_title=..., game_platform=..., game_genre=..., game_price=...)`):
no primary key is assigned at construction and no validation is applied
to any field value. -/
def Game.new (title genre platform : String) (price : Int) : Game :=
  { game_id := none
    game_title := title
    game_genre := genre
    game_platform := platform
    game_price := price }

/-- Construction of a `Review` as in the test fixtures
(`Review(review_score=..., review_comment=..., game_id=...)`):
no primary key is assigned at construction and no validation is applied
to the score or any other field. -/
def Review.new (score : Int) (comment : String) (gid : Option Nat) : Review :=
  { review_id := none
    review_score := score
    review_comment := comment
    game_id := gid }

/-- Modelled from the spec: the relational store behind
`create_engine('sqlite:///one_to_many.db')` (db.py line 11), §4.3 of the
specification.  Two tables holding the persisted rows in insertion order,
plus the auto-increment counters for the two primary keys. -/
structure DB where
  games : List Game
  reviews : List Review
  nextGameId : Nat
  nextReviewId : Nat
deriving DecidableEq, Repr

def DB.empty : DB :=
  { games := [], reviews := [], nextGameId := 1, nextReviewId := 1 }

/-- Storage-layer errors surfaced to the caller (spec §7): a constraint
violation on insert propagates and is not caught anywhere in the code. -/
inductive DBError where
  | foreignKeyViolation
deriving DecidableEq, Repr

/-- Whether some persisted game row carries the given primary key. -/
def DB.hasGameId (db : DB) (gid : Nat) : Bool :=
  db.games.any (fun g => g.game_id == some gid)

/-- The foreign-key check for `reviews.game_id` (declared
`ForeignKey('games.game_id')` at db.py line 37): a NULL foreign key is
accepted, a non-NULL one must reference an existing `games.game_id`. -/
def DB.fkOk (db : DB) (gid? : Option Nat) : Bool :=
  match gid? with
  | none => true
  | some gid => db.hasGameId gid

/-- Modelled from the spec (§4.3): `session.add(g); session.commit()`
for a `Game` — the row is appended, the auto-increment primary key is
assigned on durable store, and the in-memory object reads it back. -/
def DB.addGameCommit (db : DB) (g : Game) : Game × DB :=
  let g' := { g with game_id := some db.nextGameId }
  (g', { db with games := db.games ++ [g'], nextGameId := db.nextGameId + 1 })

/-- Modelled from the spec (§4.3, §7): `session.add(r); session.commit()`
for a `Review` — the foreign key is checked on insert; on success the row
is appended with its assigned primary key, on violation the storage-layer
error propagates to the caller. -/
def DB.addReviewCommit (db : DB) (r : Review) : Except DBError (Review × DB) :=
  if db.fkOk r.game_id then
    let r' := { r with review_id := some db.nextReviewId }
    Except.ok (r', { db with reviews := db.reviews ++ [r'], nextReviewId := db.nextReviewId + 1 })
  else
    Except.error DBError.foreignKeyViolation

/-- Modelled from the spec (§4.3): `session.bulk_save_objects([...])`
followed by `session.commit()` — the rows are inserted in list order in
one batch, each checked against the foreign-key constraint. -/
def DB.bulkSaveReviewsCommit (db : DB) : List Review → Except DBError (List Review × DB)
  | [] => Except.ok ([], db)
  | r :: rest =>
    match db.addReviewCommit r with
    | Except.error e => Except.error e
    | Except.ok (r', db') =>
      match db'.bulkSaveReviewsCommit rest with
      | Except.error e => Except.error e
      | Except.ok (rs', db'') => Except.ok (r' :: rs', db'')

/-- The relationship collection `Game.reviews` declared at db.py line 24
(`relationship('Review', backref=backref('game'))`): the reviews whose
`game_id` equals this game's primary key, in storage (insertion) order.
A game with no assigned primary key owns no persisted reviews, and a
NULL foreign key matches no game. -/
def Game.reviewsIn (g : Game) (db : DB) : List Review :=
  match g.game_id with
  | none => []
  | some gid => db.reviews.filter (fun r => r.game_id == some gid)

/-- The back-reference `Review.game` created by the same declaration:
the persisted game whose primary key equals this review's foreign key. -/
def Review.gameIn (r : Review) (db : DB) : Option Game :=
  match r.game_id with
  | none => none
  | some gid => db.games.find? (fun g => g.game_id == some gid)

/-- Primary keys of persisted game rows are assigned and pairwise
distinct (they come from the auto-increment counter). -/
def DB.gamePKsNodup (db : DB) : Prop :=
  (db.games.map Game.game_id).Nodup

/-- The two schema variants' column names.  Variant one, from
`src/one_to_many/app/db.py` lines 15-28. -/
def dbPyGameColumns : List String :=
  ["game_id", "game_title", "game_genre", "game_platform", "game_price"]

/-- From `src/one_to_many/app/db.py` lines 31-42. -/
def dbPyReviewColumns : List String :=
  ["review_id", "review_score", "review_comment", "game_id"]

/-- Modelled from the spec: the second schema variant's `Game` class body
is missing from `src/` (`src/one_to_many/models.py` holds only the engine
and `Base`); its columns `id`, `title`, `platform`, `genre`, `price` are
taken from spec §3/§6 and the call sites in `src/lib/testing`. -/
def modelsPyGameColumns : List String :=
  ["id", "title", "platform", "genre", "price"]

/-- Modelled from the spec: the second variant's `Review` columns `id`,
`score`, `comment`, `game_id`, from spec §3/§6 and `src/lib/testing`. -/
def modelsPyReviewColumns : List String :=
  ["id", "score", "comment", "game_id"]

/-- A value sitting in the Python interpreter's `sys.path` list: either a
string (possibly naming a directory) or some other object, such as a
function.  `os.getcwd` is a builtin function object. -/
inductive PyValue where
  | str (s : String)
  | builtinFunction (name : String)
deriving DecidableEq, Repr

/-- Modelled from the spec: the interpreter's path-based module search
considers only the `sys.path` entries that are strings naming paths;
entries of other types contribute nothing to module resolution. -/
def resolvableEntries (path : List PyValue) : List String :=
  path.filterMap (fun v =>
    match v with
    | PyValue.str s => some s
    | PyValue.builtinFunction _ => none)

/-- From `src/one_to_many/app/db.py` line 4: `sys.path.append(os.getcwd)`
appends the function object `os.getcwd` itself — the call parenthesis is
missing — not the string the function would return. -/
def sysPathAfterAppend (path : List PyValue) : List PyValue :=
  path ++ [PyValue.builtinFunction "os.getcwd"]

/-- C2: round-trip of constructed fields through persistence: for every
`Game` constructed with any title, platform, genre and price (no
validation is applied), after the session commit each field reads back
from the object unchanged, and the object is among the persisted rows. -/
theorem game_fields_roundtrip (db : DB) (t ge p : String) (pr : Int) :
    (db.addGameCommit (Game.new t ge p pr)).1.game_title = t
    ∧ (db.addGameCommit (Game.new t ge p pr)).1.game_genre = ge
    ∧ (db.addGameCommit (Game.new t ge p pr)).1.game_platform = p
    ∧ (db.addGameCommit (Game.new t ge p pr)).1.game_price = pr
    ∧ (db.addGameCommit (Game.new t ge p pr)).1
        ∈ (db.addGameCommit (Game.new t ge p pr)).2.games := by
  refine ⟨rfl, rfl, rfl, rfl, ?_⟩
  simp [DB.addGameCommit]

/-- C9: the repository holds two side-by-side declarations of the
games/reviews model with inconsistent column names — `game_id`/
`game_title`/... in db.py versus `id`/`title`/... in the models.py
variant — divergent, non-equivalent definitions of the same two-entity
model (they do not even agree as sets of names). -/
theorem schemas_divergent :
    dbPyGameColumns ≠ modelsPyGameColumns
    ∧ dbPyReviewColumns ≠ modelsPyReviewColumns
    ∧ "game_title" ∈ dbPyGameColumns ∧ "game_title" ∉ modelsPyGameColumns
    ∧ "title" ∈ modelsPyGameColumns ∧ "title" ∉ dbPyGameColumns
    ∧ "review_score" ∈ dbPyReviewColumns ∧ "review_score" ∉ modelsPyReviewColumns
    ∧ "score" ∈ modelsPyReviewColumns ∧ "score" ∉ dbPyReviewColumns := by
  decide

/-- C10: `sys.path.append(os.getcwd)` appends the function object itself,
never a valid directory path, so the set of entries usable for module
resolution is unchanged by the append: the statement has no effect on
module resolution, whatever `sys.path` held before. -/
theorem sys_path_append_no_effect (path : List PyValue) :
    resolvableEntries (sysPathAfterAppend path) = resolvableEntries path
    ∧ PyValue.builtinFunction "os.getcwd" ∈ sysPathAfterAppend path := by
  constructor
  · simp [resolvableEntries, sysPathAfterAppend]
  · simp [sysPathAfterAppend]

/-- If a persisted game carries primary key `gid`, the store knows that key. -/
theorem DB.hasGameId_of_mem {db : DB} {g : Game} {gid : Nat}
    (hg : g ∈ db.games) (hgid : g.game_id = some gid) :
    db.hasGameId gid = true := by
  simp only [DB.hasGameId, List.any_eq_true]
  exact ⟨g, hg, by simp [hgid]⟩

/-- With pairwise-distinct primary keys, looking a key up among the game
rows finds exactly the row that carries it. -/
theorem find_game_by_pk (l : List Game) (g : Game) (gid : Nat)
    (hnodup : (l.map Game.game_id).Nodup) (hg : g ∈ l) (hgid : g.game_id = some gid) :
    l.find? (fun x => x.game_id == some gid) = some g := by
  induction l with
  | nil => cases hg
  | cons a l ih =>
    rw [List.map_cons, List.nodup_cons] at hnodup
    obtain ⟨hna, hnd⟩ := hnodup
    rcases List.mem_cons.mp hg with rfl | hmem
    · exact List.find?_cons_of_pos _ (by simp [hgid])
    · by_cases hcase : (a.game_id == some gid) = true
      · exact absurd
          (by rw [show a.game_id = some gid by simpa using hcase, ← hgid]
              exact List.mem_map_of_mem Game.game_id hmem) hna
      · rw [List.find?_cons_of_neg _ (by simpa using hcase)]
        exact ih hnd hmem

/-- C1: bidirectional consistency of the one-to-many relationship: for
every persisted `Review` r and persisted `Game` g with distinct game
primary keys, if `r.game_id == g.id` then r appears in the collection
`g.reviews` and `r.game == g` — the back-reference and membership in
the collection agree as inverse views of the same foreign key. -/
theorem reviews_backref_consistent (db : DB) (g : Game) (r : Review) (gid : Nat)
    (hnodup : db.gamePKsNodup) (hg : g ∈ db.games) (hr : r ∈ db.reviews)
    (hgid : g.game_id = some gid) (hfk : r.game_id = some gid) :
    r ∈ g.reviewsIn db ∧ r.gameIn db = some g := by
  constructor
  · simp only [Game.reviewsIn, hgid]
    rw [List.mem_filter]
    exact ⟨hr, by simp [hfk]⟩
  · simp only [Review.gameIn, hfk]
    exact find_game_by_pk db.games g gid hnodup hg hgid

/-- The persisted Mario Kart fixture row from the TestGame fixture. -/
def wMarioKart : Game :=
  { game_id := some 1
    game_title := "Mario Kart"
    game_genre := "Racing"
    game_platform := "Switch"
    game_price := 60 }

/-- A persisted review row referencing the fixture game. -/
def wReview1 : Review :=
  { review_id := some 1
    review_score := 10
    review_comment := "Wow, what a game"
    game_id := some 1 }

/-- A store holding the fixture game and one review referencing it. -/
def wDB : DB :=
  { games := [wMarioKart], reviews := [wReview1], nextGameId := 2, nextReviewId := 2 }

theorem reviews_backref_consistent_witness :
    wDB.gamePKsNodup ∧ wMarioKart ∈ wDB.games ∧ wReview1 ∈ wDB.reviews
    ∧ wMarioKart.game_id = some 1 ∧ wReview1.game_id = some 1
    ∧ (wReview1 ∈ wMarioKart.reviewsIn wDB ∧ wReview1.gameIn wDB = some wMarioKart) := by
  have h1 : wDB.gamePKsNodup := by simp [DB.gamePKsNodup, wDB]
  have h2 : wMarioKart ∈ wDB.games := by simp [wDB]
  have h3 : wReview1 ∈ wDB.reviews := by simp [wDB]
  exact ⟨h1, h2, h3, rfl, rfl,
    reviews_backref_consistent wDB wMarioKart wReview1 1 h1 h2 h3 rfl rfl⟩

/-- Unfolding a two-element batch insert whose rows both reference an
existing game key: both inserts pass the foreign-key check, the rows are
appended in list order with consecutive auto-assigned primary keys. -/
theorem bulk_two_eq (db : DB) (gid : Nat) (s1 s2 : Int) (c1 c2 : String)
    (hfk : db.hasGameId gid = true) :
    db.bulkSaveReviewsCommit [Review.new s1 c1 (some gid), Review.new s2 c2 (some gid)]
      = Except.ok
        ([{ review_id := some db.nextReviewId, review_score := s1,
            review_comment := c1, game_id := some gid },
          { review_id := some (db.nextReviewId + 1), review_score := s2,
            review_comment := c2, game_id := some gid }],
         { db with
            reviews := db.reviews ++
              [{ review_id := some db.nextReviewId, review_score := s1,
                 review_comment := c1, game_id := some gid },
               { review_id := some (db.nextReviewId + 1), review_score := s2,
                 review_comment := c2, game_id := some gid }],
            nextReviewId := db.nextReviewId + 1 + 1 }) := by
  have hfk' : (db.games.any fun x => x.game_id == some gid) = true := hfk
  simp [DB.bulkSaveReviewsCommit, DB.addReviewCommit, DB.fkOk, DB.hasGameId,
    Review.new, hfk']

/-- Appending rows to the store extends a game's relationship collection
by exactly the appended rows that match its key. -/
theorem reviewsIn_append (g : Game) (db : DB) (rs : List Review) (n : Nat) (gid : Nat)
    (hgid : g.game_id = some gid) :
    g.reviewsIn { db with reviews := db.reviews ++ rs, nextReviewId := n }
      = g.reviewsIn db ++ rs.filter (fun r => r.game_id == some gid) := by
  simp [Game.reviewsIn, hgid, List.filter_append]

/-- C3: batch insert cardinality: if exactly two `Review` rows whose
`game_id` equals a persisted game g's id are inserted in one batch
operation and committed, and no other reviews reference g, then
`len(g.reviews) == 2`. -/
theorem batch_insert_two_reviews (db : DB) (g : Game) (gid : Nat) (s1 s2 : Int)
    (c1 c2 : String) (hg : g ∈ db.games) (hgid : g.game_id = some gid)
    (hempty : g.reviewsIn db = []) :
    ∃ rs' db',
      db.bulkSaveReviewsCommit [Review.new s1 c1 (some gid), Review.new s2 c2 (some gid)]
        = Except.ok (rs', db')
      ∧ (g.reviewsIn db').length = 2 := by
  have hfk : db.hasGameId gid = true := DB.hasGameId_of_mem hg hgid
  refine ⟨_, _, bulk_two_eq db gid s1 s2 c1 c2 hfk, ?_⟩
  rw [reviewsIn_append g db _ _ gid hgid, hempty]
  simp

/-- C4: iteration order of the reviews collection: for a game whose two
reviews with scores 10 and 8 were inserted in that order by the batch
operation, iterating `g.reviews` yields them in insertion order — the
scores read back as the list [10, 8]. -/
theorem reviews_iteration_order (db : DB) (g : Game) (gid : Nat) (c1 c2 : String)
    (hg : g ∈ db.games) (hgid : g.game_id = some gid)
    (hempty : g.reviewsIn db = []) :
    ∃ rs' db',
      db.bulkSaveReviewsCommit [Review.new 10 c1 (some gid), Review.new 8 c2 (some gid)]
        = Except.ok (rs', db')
      ∧ (g.reviewsIn db').map Review.review_score = [10, 8] := by
  have hfk : db.hasGameId gid = true := DB.hasGameId_of_mem hg hgid
  refine ⟨_, _, bulk_two_eq db gid 10 8 c1 c2 hfk, ?_⟩
  rw [reviewsIn_append g db _ _ gid hgid, hempty]
  simp

/-- A store holding only the fixture game and no reviews at all. -/
def wDBnoReviews : DB :=
  { games := [wMarioKart], reviews := [], nextGameId := 2, nextReviewId := 1 }

theorem batch_insert_two_reviews_witness :
    wMarioKart ∈ wDBnoReviews.games ∧ wMarioKart.game_id = some 1
    ∧ wMarioKart.reviewsIn wDBnoReviews = []
    ∧ ∃ rs' db',
        wDBnoReviews.bulkSaveReviewsCommit
          [Review.new 10 "Wow, what a game" (some 1), Review.new 8 "A classic" (some 1)]
          = Except.ok (rs', db')
        ∧ (wMarioKart.reviewsIn db').length = 2 := by
  have h1 : wMarioKart ∈ wDBnoReviews.games := by simp [wDBnoReviews]
  exact ⟨h1, rfl, rfl,
    batch_insert_two_reviews wDBnoReviews wMarioKart 1 10 8
      "Wow, what a game" "A classic" h1 rfl rfl⟩

theorem reviews_iteration_order_witness :
    wMarioKart ∈ wDBnoReviews.games ∧ wMarioKart.game_id = some 1
    ∧ wMarioKart.reviewsIn wDBnoReviews = []
    ∧ ∃ rs' db',
        wDBnoReviews.bulkSaveReviewsCommit
          [Review.new 10 "Wow, what a game" (some 1), Review.new 8 "A classic" (some 1)]
          = Except.ok (rs', db')
        ∧ (wMarioKart.reviewsIn db').map Review.review_score = [10, 8] := by
  have h1 : wMarioKart ∈ wDBnoReviews.games := by simp [wDBnoReviews]
  exact ⟨h1, rfl, rfl,
    reviews_iteration_order wDBnoReviews wMarioKart 1
      "Wow, what a game" "A classic" h1 rfl rfl⟩

/-- A successful single-row review insert always hands back the object
with its auto-assigned primary key set. -/
theorem addReviewCommit_assigns_pk {db : DB} {r r' : Review} {db' : DB}
    (h : db.addReviewCommit r = Except.ok (r', db')) :
    r'.review_id.isSome = true := by
  rw [DB.addReviewCommit] at h
  split at h
  · simp only [Except.ok.injEq, Prod.mk.injEq] at h
    rw [← h.1]
    rfl
  · exact absurd h (by simp)

/-- Every object handed back by a successful batch insert carries its
auto-assigned primary key. -/
theorem bulkSave_assigns_pks :
    ∀ (rs : List Review) (db : DB) (rs' : List Review) (db' : DB),
      db.bulkSaveReviewsCommit rs = Except.ok (rs', db') →
      ∀ x ∈ rs', x.review_id.isSome = true := by
  intro rs
  induction rs with
  | nil =>
    intro db rs' db' h x hx
    rw [DB.bulkSaveReviewsCommit] at h
    simp only [Except.ok.injEq, Prod.mk.injEq] at h
    rw [← h.1] at hx
    cases hx
  | cons r rest ih =>
    intro db rs' db' h x hx
    rw [DB.bulkSaveReviewsCommit] at h
    split at h
    · exact absurd h (by simp)
    · rename_i r₁ db₁ hstep
      split at h
      · exact absurd h (by simp)
      · rename_i rs₁ db₂ hrest
        simp only [Except.ok.injEq, Prod.mk.injEq] at h
        rw [← h.1] at hx
        rcases List.mem_cons.mp hx with rfl | hx'
        · exact addReviewCommit_assigns_pk hstep
        · exact ih db₁ rs₁ db₂ hrest x hx'

/-- C5: commit makes auto-assigned keys readable: a freshly constructed
`Game` or `Review` has no primary key before it is durably stored; after
a committed single-row add, and after a committed batch add, every
handed-back object's auto-assigned primary key is readable (non-None). -/
theorem commit_assigns_primary_keys (db : DB) (t ge p : String) (pr s : Int)
    (c : String) (gid? : Option Nat) (r : Review) (rs : List Review)
    (r' : Review) (db₁ : DB) (rs' : List Review) (db₂ : DB)
    (hadd : db.addReviewCommit r = Except.ok (r', db₁))
    (hbulk : db.bulkSaveReviewsCommit rs = Except.ok (rs', db₂)) :
    (Game.new t ge p pr).game_id = none
    ∧ (Review.new s c gid?).review_id = none
    ∧ ((db.addGameCommit (Game.new t ge p pr)).1.game_id).isSome = true
    ∧ r'.review_id.isSome = true
    ∧ ∀ x ∈ rs', x.review_id.isSome = true :=
  ⟨rfl, rfl, rfl, addReviewCommit_assigns_pk hadd,
    bulkSave_assigns_pks rs db rs' db₂ hbulk⟩

/-- The review object handed back by the single-row add in the witness
store, with its assigned key. -/
def wStoredReview : Review :=
  { review_id := some 1
    review_score := 10
    review_comment := "Wow, what a game"
    game_id := none }

/-- The store after that single-row add. -/
def wDBafterAdd : DB :=
  { games := [], reviews := [wStoredReview], nextGameId := 1, nextReviewId := 2 }

/-- The review object handed back by the one-element batch add. -/
def wStoredReview2 : Review :=
  { review_id := some 1
    review_score := 8
    review_comment := "A classic"
    game_id := none }

/-- The store after that batch add. -/
def wDBafterBulk : DB :=
  { games := [], reviews := [wStoredReview2], nextGameId := 1, nextReviewId := 2 }

theorem commit_assigns_primary_keys_witness :
    DB.empty.addReviewCommit (Review.new 10 "Wow, what a game" none)
      = Except.ok (wStoredReview, wDBafterAdd)
    ∧ DB.empty.bulkSaveReviewsCommit [Review.new 8 "A classic" none]
      = Except.ok ([wStoredReview2], wDBafterBulk)
    ∧ ((Game.new "Mario Kart" "Racing" "Switch" 60).game_id = none
       ∧ (Review.new 10 "Wow, what a game" none).review_id = none
       ∧ ((DB.empty.addGameCommit (Game.new "Mario Kart" "Racing" "Switch" 60)).1.game_id).isSome = true
       ∧ wStoredReview.review_id.isSome = true
       ∧ ∀ x ∈ [wStoredReview2], x.review_id.isSome = true) :=
  ⟨rfl, rfl,
    commit_assigns_primary_keys DB.empty "Mario Kart" "Racing" "Switch" 60 10
      "Wow, what a game" none (Review.new 10 "Wow, what a game" none)
      [Review.new 8 "A classic" none] wStoredReview wDBafterAdd
      [wStoredReview2] wDBafterBulk rfl rfl⟩

/-- C6: referential-integrity failure mode: inserting a `Review` whose
`game_id` references no existing `Game` primary key violates the
foreign-key constraint; the violation comes back to the caller as the
storage-layer error, both from a single-row add and from a batch add —
no code path catches or recovers from it. -/
theorem dangling_fk_insert_errors (db : DB) (s : Int) (c : String) (gid : Nat)
    (hno : db.hasGameId gid = false) :
    db.addReviewCommit (Review.new s c (some gid))
      = Except.error DBError.foreignKeyViolation
    ∧ db.bulkSaveReviewsCommit [Review.new s c (some gid)]
      = Except.error DBError.foreignKeyViolation := by
  have h1 : db.addReviewCommit (Review.new s c (some gid))
      = Except.error DBError.foreignKeyViolation := by
    simp [DB.addReviewCommit, DB.fkOk, Review.new, hno]
  refine ⟨h1, ?_⟩
  rw [DB.bulkSaveReviewsCommit, h1]

theorem dangling_fk_insert_errors_witness :
    DB.empty.hasGameId 42 = false
    ∧ (DB.empty.addReviewCommit (Review.new 10 "ghost review" (some 42))
        = Except.error DBError.foreignKeyViolation
       ∧ DB.empty.bulkSaveReviewsCommit [Review.new 10 "ghost review" (some 42)]
        = Except.error DBError.foreignKeyViolation) :=
  ⟨rfl, dangling_fk_insert_errors DB.empty 10 "ghost review" 42 rfl⟩

/-- C8: absence of validation: any integer price (negative included) and
any integer score (outside any plausible rating range included) are
accepted: committing a `Game` or a `Review` carrying such a value
succeeds without error and the value is stored as given. -/
theorem no_validation_on_values (db : DB) (t ge p : String) (price s : Int)
    (c : String) (gid : Nat) (hgid : db.hasGameId gid = true) :
    (db.addGameCommit (Game.new t ge p price)).1.game_price = price
    ∧ (db.addGameCommit (Game.new t ge p price)).1
        ∈ (db.addGameCommit (Game.new t ge p price)).2.games
    ∧ ∃ r' db', db.addReviewCommit (Review.new s c (some gid)) = Except.ok (r', db')
        ∧ r'.review_score = s ∧ r' ∈ db'.reviews := by
  refine ⟨rfl, by simp [DB.addGameCommit], ?_⟩
  have hfk : db.fkOk (some gid) = true := by simp [DB.fkOk, hgid]
  refine ⟨{ review_id := some db.nextReviewId, review_score := s,
            review_comment := c, game_id := some gid },
          { db with
              reviews := db.reviews ++
                [{ review_id := some db.nextReviewId, review_score := s,
                   review_comment := c, game_id := some gid }],
              nextReviewId := db.nextReviewId + 1 },
          ?_, rfl, ?_⟩
  · simp [DB.addReviewCommit, Review.new, DB.fkOk, hgid]
  · simp

theorem no_validation_on_values_witness :
    wDB.hasGameId 1 = true
    ∧ ((wDB.addGameCommit (Game.new "Bargain Bin" "Racing" "Switch" (-5))).1.game_price = -5
       ∧ (wDB.addGameCommit (Game.new "Bargain Bin" "Racing" "Switch" (-5))).1
           ∈ (wDB.addGameCommit (Game.new "Bargain Bin" "Racing" "Switch" (-5))).2.games
       ∧ ∃ r' db', wDB.addReviewCommit (Review.new 9999 "impossible score" (some 1))
             = Except.ok (r', db')
           ∧ r'.review_score = 9999 ∧ r' ∈ db'.reviews) :=
  ⟨rfl, no_validation_on_values wDB "Bargain Bin" "Racing" "Switch" (-5) 9999
    "impossible score" 1 rfl⟩

/-- The fixture-setup actions appearing in the test class bodies, in
source order: constructing a `Game`, adding it to the session,
committing, constructing a `Review` whose `game_id` keyword argument is
computed from the `Game` object's id attribute, adding a review, and
batch-saving the pending reviews. -/
inductive FixtureStep where
  | constructGame
  | sessionAddGame
  | sessionCommit
  | constructReviewFromGameId
  | sessionAddReview
  | bulkSaveReviews
deriving DecidableEq, Repr

/-- `src/one_to_many/testing/game_test.py` `TestGame` class body, lines
15-38, step by step: build and commit `mario_kart`, then build the two
reviews from `mario_kart.game_id`, batch-save them and commit. -/
def gameTestFixtureSteps : List FixtureStep :=
  [FixtureStep.constructGame, FixtureStep.sessionAddGame, FixtureStep.sessionCommit,
   FixtureStep.constructReviewFromGameId, FixtureStep.constructReviewFromGameId,
   FixtureStep.bulkSaveReviews, FixtureStep.sessionCommit]

/-- `src/one_to_many/testing/review_test.py` `TestReview` class body,
lines 15-32: build and commit `skyrim`, then build `skyrim_review` from
`skyrim.game_id`, add it and commit. -/
def reviewTestFixtureSteps : List FixtureStep :=
  [FixtureStep.constructGame, FixtureStep.sessionAddGame, FixtureStep.sessionCommit,
   FixtureStep.constructReviewFromGameId, FixtureStep.sessionAddReview,
   FixtureStep.sessionCommit]

/-- `src/lib/testing/game_test.py` `TestGame` class body, lines 15-38:
the same sequence as the other variant, with `game_id=mario_kart.id`. -/
def libGameTestFixtureSteps : List FixtureStep :=
  [FixtureStep.constructGame, FixtureStep.sessionAddGame, FixtureStep.sessionCommit,
   FixtureStep.constructReviewFromGameId, FixtureStep.constructReviewFromGameId,
   FixtureStep.bulkSaveReviews, FixtureStep.sessionCommit]

/-- `src/lib/testing/review_test.py` `TestReview` class body, lines
16-33: the same sequence as the other variant, with
`game_id=skyrim.id`. -/
def libReviewTestFixtureSteps : List FixtureStep :=
  [FixtureStep.constructGame, FixtureStep.sessionAddGame, FixtureStep.sessionCommit,
   FixtureStep.constructReviewFromGameId, FixtureStep.sessionAddReview,
   FixtureStep.sessionCommit]

/-- Every fixture-setup code path in the repository's test files. -/
def allFixtureTraces : List (List FixtureStep) :=
  [gameTestFixtureSteps, reviewTestFixtureSteps,
   libGameTestFixtureSteps, libReviewTestFixtureSteps]

/-- Scans a fixture trace tracking whether the game has been added to
the session and whether a commit has durably stored it; returns `true`
exactly when some review construction reads the game's id attribute
before the game has been committed. -/
def usesGameIdBeforeCommit (added committed : Bool) : List FixtureStep → Bool
  | [] => false
  | FixtureStep.sessionAddGame :: rest => usesGameIdBeforeCommit true committed rest
  | FixtureStep.sessionCommit :: rest =>
      usesGameIdBeforeCommit added (committed || added) rest
  | FixtureStep.constructReviewFromGameId :: rest =>
      if committed then usesGameIdBeforeCommit added committed rest else true
  | _ :: rest => usesGameIdBeforeCommit added committed rest

/-- C7 counterexample: the claim that some test code path constructs a
`Review` with `game_id` computed from a `Game` object's id before that
game has been committed is false: no trace in `allFixtureTraces` reads
the id before the commit — every test file commits the game first. -/
theorem no_use_before_commit :
    ¬ ∃ t ∈ allFixtureTraces, usesGameIdBeforeCommit false false t = true := by
  decide

/-- C7 amended: in every test code path, the `Game` is session-added and
committed before any `Review`'s `game_id` is computed from the game
object's id, so the referenced id is already assigned and its validity
does not depend on auto-flush behaviour. -/
theorem game_committed_before_review_construction :
    usesGameIdBeforeCommit false false gameTestFixtureSteps = false
    ∧ usesGameIdBeforeCommit false false reviewTestFixtureSteps = false
    ∧ usesGameIdBeforeCommit false false libGameTestFixtureSteps = false
    ∧ usesGameIdBeforeCommit false false libReviewTestFixtureSteps = false := by
  decide
